import Mathlib

set_option maxHeartbeats 1000000

/-! Verification of the Snowflake key-pair query runner
(`redash/query_runner/snowflake_keypair_env.py`).

The module is a single adapter class; its logic is embedded here as pure
Lean functions. The external collaborators (the Snowflake connector, the
`cryptography` key-parsing library, the process environment, the JSON
serializer and the host's cursor behaviour) are modelled as explicit
parameters whose outcomes are `Except` values, so that every control path
of the source is represented and executable. -/

/-- Generic result-column types exposed by the host (the `TYPE_*` constants
imported from `redash.query_runner`). -/
inductive RedashType where
  | TYPE_STRING
  | TYPE_BOOLEAN
  | TYPE_DATE
  | TYPE_DATETIME
  | TYPE_INTEGER
  | TYPE_FLOAT
deriving DecidableEq

open RedashType

/-- The `TYPES_MAP` dict of the source: native string type tag to generic
type. A Python `dict.get(tag)` is modelled as a chain of key comparisons
returning `none` for a missing key. -/
def TYPES_MAP (tag : String) : Option RedashType :=
  if tag = "TEXT" then some TYPE_STRING
  else if tag = "BOOLEAN" then some TYPE_BOOLEAN
  else if tag = "DATE" then some TYPE_DATE
  else if tag = "TIMESTAMP" then some TYPE_DATETIME
  else if tag = "TIMESTAMP_LTZ" then some TYPE_DATETIME
  else if tag = "TIMESTAMP_TZ" then some TYPE_DATETIME
  else if tag = "TIMESTAMP_NTZ" then some TYPE_DATETIME
  else if tag = "NUMBER" then some TYPE_FLOAT
  else if tag = "FLOAT" then some TYPE_FLOAT
  else if tag = "REAL" then some TYPE_FLOAT
  else if tag = "DOUBLE" then some TYPE_FLOAT
  else if tag = "INT" then some TYPE_INTEGER
  else if tag = "INTEGER" then some TYPE_INTEGER
  else none

/-- The key set of `TYPES_MAP`, used to state the default-fallback claim. -/
def TYPES_MAP_keys : List String :=
  ["TEXT", "BOOLEAN", "DATE", "TIMESTAMP", "TIMESTAMP_LTZ", "TIMESTAMP_TZ",
   "TIMESTAMP_NTZ", "NUMBER", "FLOAT", "REAL", "DOUBLE", "INT", "INTEGER"]

/-- The `NUMERIC_TYPES_MAP` dict of the source: Snowflake numeric type code
to generic type (schema-introspection path only). -/
def NUMERIC_TYPES_MAP (code : Int) : Option RedashType :=
  if code = 0 then some TYPE_INTEGER
  else if code = 1 then some TYPE_FLOAT
  else if code = 2 then some TYPE_STRING
  else if code = 3 then some TYPE_DATE
  else if code = 4 then some TYPE_DATETIME
  else if code = 5 then some TYPE_STRING
  else if code = 6 then some TYPE_DATETIME
  else if code = 7 then some TYPE_DATETIME
  else if code = 8 then some TYPE_DATETIME
  else if code = 13 then some TYPE_BOOLEAN
  else none

/-- A Python value arriving as the `data_type` argument of
`determine_type`: an `int`, a `str`, or anything else. -/
inductive PyTypeTag where
  | intCode (code : Int)
  | strTag (tag : String)
  | otherTag
deriving DecidableEq

/-- Python's `str.upper()` on the tag, as a character-wise map (the tags
involved are ASCII). -/
def pyUpper (s : String) : String :=
  String.mk (s.data.map Char.toUpper)

/-- `SnowflakeKeyPairEnv.determine_type`. The Python condition
`t == TYPE_INTEGER and scale and scale > 0` is truthy exactly when the
lookup gave `TYPE_INTEGER` and `scale` is a present, nonzero value greater
than zero, which is `0 < scale.getD 0` on an `Option Int` scale. -/
def determine_type (data_type : PyTypeTag) (scale : Option Int) : RedashType :=
  match data_type with
  | .intCode code =>
    let t := NUMERIC_TYPES_MAP code
    if t = some TYPE_INTEGER ∧ 0 < scale.getD 0 then TYPE_FLOAT
    else t.getD TYPE_STRING
  | .strTag tag => (TYPES_MAP (pyUpper tag)).getD TYPE_STRING
  | .otherTag => TYPE_STRING

/-- The configuration record; every field is read with `.get`, so each is
modelled as optional. Only the NAME of the environment variable is stored. -/
structure Configuration where
  account : Option String
  user : Option String
  warehouse : Option String
  database : Option String
  schema : Option String
  role : Option String
  private_key_env_var : Option String
  private_key_pwd : Option String
deriving DecidableEq

/-- Abstract byte strings (the payloads handed to the crypto library and
the driver). -/
abbrev Bytes := List Nat

/-- Abstract handle for a parsed private key object. -/
abbrev PrivateKeyHandle := Nat

/-- Abstract handle for an open driver connection. -/
abbrev ConnectionHandle := Nat

/-- `serialization.Encoding` argument of `private_bytes`. -/
inductive KeyEncoding where
  | DER
  | PEM
deriving DecidableEq

/-- `serialization.PrivateFormat` argument of `private_bytes`. -/
inductive KeyFormat where
  | PKCS8
  | TraditionalOpenSSL
deriving DecidableEq

/-- `serialization` encryption algorithm argument of `private_bytes`. -/
inductive KeyEncryption where
  | NoEncryption
  | BestAvailableEncryption (pwd : Bytes)
deriving DecidableEq

/-- The connection parameter dict assembled by `_get_connection`; the
`private_key` entry is added only when a key is resolved. -/
structure ConnParams where
  account : Option String
  user : Option String
  warehouse : Option String
  database : Option String
  schema : Option String
  role : Option String
  private_key : Option Bytes
deriving DecidableEq

/-- The external crypto and driver libraries, as oracles: each call either
returns a value or raises (an `Except.error` carrying the message that
`str(e)` would render). -/
structure SnowflakeCryptoLib where
  b64decode : String → Except String Bytes
  load_pem_private_key : Bytes → Option Bytes → Except String PrivateKeyHandle
  private_bytes : PrivateKeyHandle → KeyEncoding → KeyFormat → KeyEncryption → Bytes
  connect : ConnParams → Except String ConnectionHandle

/-- One `logger.*` call of `_get_connection`, with the values the source
interpolates into the message. -/
inductive LogEntry where
  | banner
  | configDump (cfg : Configuration)
  | connParamsDump (params : ConnParams)
  | envVarName (varName : Option String)
  | envVarNotSet (varName : String)
  | keyLoaded (length : Nat)
  | keyProcessed
  | keyFailed (msg : String)
  | attemptingConnection
  | connectionSuccess
  | connectionFailed (msg : String)
deriving DecidableEq

/-- One outbound call to the crypto library or the driver, recorded so the
theorems can speak about which external calls were attempted. -/
inductive DriverCall where
  | b64decodeCall (value : String)
  | loadPemCall (data : Bytes) (password : Option Bytes)
  | connectCall (params : ConnParams)
deriving DecidableEq

/-- The error taxonomy of the specification, keyed by which source line
raised: the unset-variable `Exception`, a `base64` failure, a key
parse/decrypt failure, or a driver connect failure. -/
inductive ConnError where
  | configurationError (msg : String)
  | keyFormatError (msg : String)
  | keyDecryptionError (msg : String)
  | connectionError (msg : String)
deriving DecidableEq

/-- Result of one `_get_connection` call: the returned connection or the
raised error, the log lines emitted, and the external calls made. -/
structure ConnAttempt where
  result : Except ConnError ConnectionHandle
  log : List LogEntry
  calls : List DriverCall

/-- The message of the `Exception` raised for a missing variable. -/
def envNotSetMsg (varName : String) : String :=
  "Environment variable " ++ varName ++ " not set"

/-- The params dict as first assembled (before any key is attached). -/
def baseParams (cfg : Configuration) : ConnParams :=
  { account := cfg.account
    user := cfg.user
    warehouse := cfg.warehouse
    database := cfg.database
    schema := cfg.schema
    role := cfg.role
    private_key := none }

/-- Python's `str.encode()` on the passphrase, modelled as the codepoint
sequence (the claims never inspect individual bytes). -/
def strEncode (s : String) : Bytes :=
  s.toList.map Char.toNat

/-- The password argument passed to `load_pem_private_key`:
`passphrase.encode() if passphrase else None`, where an absent or empty
string is falsy. -/
def pwdArg (cfg : Configuration) : Option Bytes :=
  match cfg.private_key_pwd with
  | none => none
  | some p => if p = "" then none else some (strEncode p)

/-- The tail of `_get_connection`: log, call `snowflake.connector.connect`,
and either return the connection or re-raise. -/
def attemptConnect (lib : SnowflakeCryptoLib) (params : ConnParams)
    (log : List LogEntry) (calls : List DriverCall) : ConnAttempt :=
  match lib.connect params with
  | .error e =>
    { result := .error (.connectionError e)
      log := log ++ [.attemptingConnection, .connectionFailed e]
      calls := calls ++ [.connectCall params] }
  | .ok c =>
    { result := .ok c
      log := log ++ [.attemptingConnection, .connectionSuccess]
      calls := calls ++ [.connectCall params] }

/-- Body of `_get_connection` after the params dict is built: the
environment read, base64 decode, PEM parse, DER re-encode and connect.
`cfgForLog` is used only for the full-configuration log line. -/
def resolveAndConnect (lib : SnowflakeCryptoLib) (osEnv : String → Option String)
    (cfgForLog : Configuration) (params : ConnParams) (envVar : Option String)
    (password : Option Bytes) : ConnAttempt :=
  let log0 : List LogEntry :=
    [.banner, .configDump cfgForLog, .connParamsDump params, .envVarName envVar]
  match envVar with
  | none => attemptConnect lib params log0 []
  | some varName =>
    if varName = "" then attemptConnect lib params log0 []
    else
      match osEnv varName with
      | none =>
        { result := .error (.configurationError (envNotSetMsg varName))
          log := log0 ++ [.envVarNotSet varName]
          calls := [] }
      | some v =>
        if v = "" then
          { result := .error (.configurationError (envNotSetMsg varName))
            log := log0 ++ [.envVarNotSet varName]
            calls := [] }
        else
          let log1 := log0 ++ [.keyLoaded v.length]
          match lib.b64decode v with
          | .error e =>
            { result := .error (.keyFormatError e)
              log := log1 ++ [.keyFailed e]
              calls := [.b64decodeCall v] }
          | .ok pkeyBytes =>
            match lib.load_pem_private_key pkeyBytes password with
            | .error e =>
              { result := .error (.keyDecryptionError e)
                log := log1 ++ [.keyFailed e]
                calls := [.b64decodeCall v, .loadPemCall pkeyBytes password] }
            | .ok key =>
              let pkb := lib.private_bytes key .DER .PKCS8 .NoEncryption
              attemptConnect lib { params with private_key := some pkb }
                (log1 ++ [.keyProcessed])
                [.b64decodeCall v, .loadPemCall pkeyBytes password]

/-- `SnowflakeKeyPairEnv._get_connection`. -/
def getConnection (lib : SnowflakeCryptoLib) (osEnv : String → Option String)
    (cfg : Configuration) : ConnAttempt :=
  resolveAndConnect lib osEnv cfg (baseParams cfg) cfg.private_key_env_var (pwdArg cfg)

/-- Opaque stand-in for a cell value produced by the driver. -/
abbrev Value := Nat

/-- A result-column record of the ResultEnvelope. -/
structure ResultColumn where
  name : String
  colType : RedashType
deriving DecidableEq

/-- Modelled from the spec: the host's column-fetch helper
(`fetch_columns`, part of the out-of-scope query-runner base class) shapes
the (name, generic_type) pairs computed by `run_query` into the
result-column records of the ResultEnvelope. -/
def fetch_columns (cols : List (String × RedashType)) : List ResultColumn :=
  cols.map (fun c => { name := c.1, colType := c.2 })

/-- The `data` dict serialized by `run_query`: column descriptors plus rows
as name-to-value mappings in column order. -/
structure ResultData where
  columns : List ResultColumn
  rows : List (List (String × Value))
deriving DecidableEq

/-- The column mapping applied on the `run_query` path:
`TYPES_MAP.get(col[1], TYPE_STRING)`. -/
def runQueryColType (tag : String) : RedashType :=
  (TYPES_MAP tag).getD TYPE_STRING

/-- The list comprehension feeding `fetch_columns` in `run_query`:
`[(col[0], TYPES_MAP.get(col[1], TYPE_STRING)) for col in cursor.description]`. -/
def runQueryColumns (desc : List (String × String)) : List (String × RedashType) :=
  desc.map (fun col => (col.1, runQueryColType col.2))

/-- Everything one `run_query` or `test_connection` call observes from the
outside world, as oracles: the libraries, the process environment, and the
outcome of each cursor operation (`Except.error` is a raised exception
carrying its `str(e)`). -/
structure Oracle where
  lib : SnowflakeCryptoLib
  osEnv : String → Option String
  cursorAcq : Except String Unit
  executeQuery : Except String Unit
  description : Except String (List (String × String))
  drainRows : Except String (List (List Value))
  json_dumps : ResultData → Except String String
  executeNoop : Except String Unit
  fetchone : Except String (List Value)

/-- The `data` dict built inside the `try` block of `run_query` from the
cursor description and the drained rows; `dict(zip(names, r))` truncates to
the shorter sequence exactly as `List.zip` does. -/
def builtData (desc : List (String × String)) (rws : List (List Value)) : ResultData :=
  let columns := fetch_columns (runQueryColumns desc)
  { columns := columns
    rows := rws.map (fun r => (columns.map ResultColumn.name).zip r) }

/-- The `try ... except` block of `run_query`: each phase that raises is
converted to `(None, str(e))`; full success yields the serialized envelope
paired with `None`. -/
def tryOutcome (o : Oracle) : Option String × Option String :=
  match o.executeQuery with
  | .error e => (none, some e)
  | .ok _ =>
    match o.description with
    | .error e => (none, some e)
    | .ok desc =>
      match o.drainRows with
      | .error e => (none, some e)
      | .ok rws =>
        match o.json_dumps (builtData desc rws) with
        | .error e => (none, some e)
        | .ok j => (some j, none)

/-- Specification-side view of `tryOutcome`: the message of the first
execution-phase failure, or `none` when every phase succeeds. -/
def phaseFailure (o : Oracle) : Option String :=
  match o.executeQuery with
  | .error e => some e
  | .ok _ =>
    match o.description with
    | .error e => some e
    | .ok desc =>
      match o.drainRows with
      | .error e => some e
      | .ok rws =>
        match o.json_dumps (builtData desc rws) with
        | .error e => some e
        | .ok _ => none

/-- Resource events observable on the driver handles. -/
inductive Event where
  | connOpened
  | cursorOpened
  | cursorClosed
  | connClosed
deriving DecidableEq

/-- An exception propagating out of `run_query` or `test_connection`:
either a `_get_connection` failure or a raised driver call. -/
inductive RunError where
  | conn (e : ConnError)
  | driver (msg : String)
deriving DecidableEq

/-- `SnowflakeKeyPairEnv.run_query`. `_get_connection` and
`connection.cursor()` run before the `try`, so their exceptions propagate;
the `finally` closes the cursor and the connection on every path of the
`try` block. -/
def run_query (o : Oracle) (cfg : Configuration) :
    Except RunError (Option String × Option String) × List Event :=
  match (getConnection o.lib o.osEnv cfg).result with
  | .error e => (.error (.conn e), [])
  | .ok _ =>
    match o.cursorAcq with
    | .error e => (.error (.driver e), [.connOpened])
    | .ok _ =>
      (.ok (tryOutcome o), [.connOpened, .cursorOpened, .cursorClosed, .connClosed])

/-- `SnowflakeKeyPairEnv.test_connection`: runs `SELECT 1`, closes in the
inner `finally`, and re-raises any failure. -/
def test_connection (o : Oracle) (cfg : Configuration) :
    Except RunError Unit × List Event :=
  match (getConnection o.lib o.osEnv cfg).result with
  | .error e => (.error (.conn e), [])
  | .ok _ =>
    match o.cursorAcq with
    | .error e => (.error (.driver e), [.connOpened])
    | .ok _ =>
      match o.executeNoop with
      | .error e => (.error (.driver e), [.connOpened, .cursorOpened, .cursorClosed, .connClosed])
      | .ok _ =>
        match o.fetchone with
        | .error e => (.error (.driver e), [.connOpened, .cursorOpened, .cursorClosed, .connClosed])
        | .ok _ => (.ok (), [.connOpened, .cursorOpened, .cursorClosed, .connClosed])

/-- One row of the `SHOW COLUMNS` introspection result, with the fields
`get_schema` reads. -/
structure ShowRow where
  kind : String
  schema_name : String
  table_name : String
  column_name : String
deriving DecidableEq

/-- One entry of the schema returned by `get_schema`. -/
structure SchemaEntry where
  name : String
  columns : List String
deriving DecidableEq

/-- The qualified table name `"{}.{}".format(schema_name, table_name)`. -/
def qualifiedName (r : ShowRow) : String :=
  r.schema_name ++ "." ++ r.table_name

/-- The filter `row["kind"] == "COLUMN"`. -/
def isCol (r : ShowRow) : Bool :=
  r.kind == "COLUMN"

/-- One iteration of the `get_schema` loop: skip non-column rows, create
the entry for an unseen qualified name, then append the column name to that
entry (insertion order of a Python dict is kept as list order). -/
def addRow (acc : List SchemaEntry) (r : ShowRow) : List SchemaEntry :=
  if isCol r then
    let tn := qualifiedName r
    let acc1 := if tn ∈ acc.map SchemaEntry.name then acc
                else acc ++ [{ name := tn, columns := [] }]
    acc1.map (fun e => if e.name = tn then { e with columns := e.columns ++ [r.column_name] } else e)
  else acc

/-- The grouping loop of `SnowflakeKeyPairEnv.get_schema` over the
introspection rows, returning `list(schema.values())`. -/
def get_schema (rows : List ShowRow) : List SchemaEntry :=
  List.foldl addRow [] rows

/-- Specification-side: the distinct qualified names of column-kind rows in
first-occurrence order. -/
def tableOrder : List ShowRow → List String → List String
  | [], _ => []
  | r :: rs, seen =>
    if isCol r ∧ qualifiedName r ∉ seen then
      qualifiedName r :: tableOrder rs (qualifiedName r :: seen)
    else tableOrder rs seen

/-- Specification-side: the column names of the column-kind rows carrying
qualified name `t`, in emission order. -/
def columnsOf (rows : List ShowRow) (t : String) : List String :=
  ((rows.filter isCol).filter (fun r => qualifiedName r == t)).map ShowRow.column_name

/-- Specification-side restatement of the grouping contract: one entry per
distinct qualified name in first-occurrence order, each carrying its
columns in emission order. -/
def specSchema (rows : List ShowRow) : List SchemaEntry :=
  (tableOrder rows []).map (fun t => { name := t, columns := columnsOf rows t })

/-- A concrete crypto/driver library where every call succeeds. -/
def libW : SnowflakeCryptoLib :=
  { b64decode := fun _ => .ok [1]
    load_pem_private_key := fun _ _ => .ok 5
    private_bytes := fun k _ _ _ => [k]
    connect := fun _ => .ok 7 }

/-- A concrete configuration with no key configured. -/
def cfgW : Configuration :=
  { account := some "acct", user := some "u", warehouse := some "wh",
    database := some "db", schema := none, role := none,
    private_key_env_var := none, private_key_pwd := none }

/-- A concrete configuration naming a key environment variable. -/
def cfgW2 : Configuration :=
  { cfgW with private_key_env_var := some "SNOWFLAKE_PK" }

/-- A concrete oracle where every call succeeds and the environment is
empty. -/
def oracleW : Oracle :=
  { lib := libW
    osEnv := fun _ => none
    cursorAcq := .ok ()
    executeQuery := .ok ()
    description := .ok [("X", "NUMBER")]
    drainRows := .ok [[1]]
    json_dumps := fun _ => .ok "serialized"
    executeNoop := .ok ()
    fetchone := .ok [1] }

/-- A concrete oracle whose execute phase raises. -/
def oracleFail : Oracle :=
  { oracleW with executeQuery := .error "SQL compilation error" }

/-- A library whose base64 decode raises. -/
def libF1 : SnowflakeCryptoLib :=
  { libW with b64decode := fun _ => .error "Invalid base64-encoded string" }

/-- A library whose PEM parse raises (for example a wrong passphrase). -/
def libF2 : SnowflakeCryptoLib :=
  { libW with load_pem_private_key := fun _ _ => .error "Incorrect password" }

/-- The environment used by the key-resolution witnesses. -/
def envPK : String → Option String :=
  fun s => if s = "SNOWFLAKE_PK" then some "QkFTRTY0" else none

/-- A configuration that also carries a passphrase secret. -/
def cfgC9 : Configuration :=
  { cfgW2 with private_key_pwd := some "hunter2" }

/-- A library whose behaviour depends on the key value, used to witness
the log noninterference statement: the parsed key handle is the first
byte of the decoded key material. -/
def libNI : SnowflakeCryptoLib :=
  { b64decode := fun s => .ok (strEncode s)
    load_pem_private_key := fun b _ => .ok (b.headD 0)
    private_bytes := fun k _ _ _ => [k]
    connect := fun _ => .ok 3 }

/-- First environment for the noninterference witness. -/
def envNI1 : String → Option String :=
  fun s => if s = "SNOWFLAKE_PK" then some "aa" else none

/-- Second environment: a different key value of the same length. -/
def envNI2 : String → Option String :=
  fun s => if s = "SNOWFLAKE_PK" then some "bb" else none

/-- The result and the external-call trace of `_get_connection` do not
depend on which configuration record is interpolated into the log line. -/
lemma resolveAndConnect_log_cfg_irrel (lib : SnowflakeCryptoLib)
    (osEnv : String → Option String) (cfgA cfgB : Configuration)
    (params : ConnParams) (envVar : Option String) (password : Option Bytes) :
    (resolveAndConnect lib osEnv cfgA params envVar password).result
      = (resolveAndConnect lib osEnv cfgB params envVar password).result ∧
    (resolveAndConnect lib osEnv cfgA params envVar password).calls
      = (resolveAndConnect lib osEnv cfgB params envVar password).calls := by
  rcases envVar with _ | varName
  · cases hc : lib.connect params <;>
      simp [resolveAndConnect, attemptConnect, hc]
  · by_cases hne : varName = ""
    · subst hne
      cases hc : lib.connect params <;>
        simp [resolveAndConnect, attemptConnect, hc]
    · rcases he : osEnv varName with _ | v
      · simp [resolveAndConnect, hne, he]
      · by_cases hv : v = ""
        · subst hv
          simp [resolveAndConnect, hne, he]
        · rcases hb : lib.b64decode v with e | kb
          · simp [resolveAndConnect, hne, he, hv, hb]
          · rcases hp : lib.load_pem_private_key kb password with e | key
            · simp [resolveAndConnect, hne, he, hv, hb, hp]
            · cases hc : lib.connect
                  { params with
                    private_key := some (lib.private_bytes key .DER .PKCS8 .NoEncryption) } <;>
                simp [resolveAndConnect, attemptConnect, hne, he, hv, hb, hp, hc]

/-- C3: the column-type mapping is a pure function with
`map("NUMBER", scale=2) = FLOAT` (string path), numeric code 0 mapping to
INTEGER at scale 0 and FLOAT at scale 2, `map("TEXT") = STRING`, unknown
tags (on either path) defaulting to STRING, and — on the numeric-code
path — an INTEGER-mapped code refined to FLOAT exactly when the reported
decimal scale is nonzero. -/
theorem determine_type_spec :
    determine_type (.strTag "NUMBER") (some 2) = TYPE_FLOAT ∧
    determine_type (.intCode 0) (some 2) = TYPE_FLOAT ∧
    determine_type (.intCode 0) (some 0) = TYPE_INTEGER ∧
    (∀ sc, determine_type (.strTag "TEXT") sc = TYPE_STRING) ∧
    (∀ tag sc, TYPES_MAP (pyUpper tag) = none →
      determine_type (.strTag tag) sc = TYPE_STRING) ∧
    (∀ code sc, NUMERIC_TYPES_MAP code = none →
      determine_type (.intCode code) sc = TYPE_STRING) ∧
    (∀ code v, NUMERIC_TYPES_MAP code = some TYPE_INTEGER → 0 ≤ v →
      (determine_type (.intCode code) (some v) = TYPE_FLOAT ↔ v ≠ 0)) := by
  refine ⟨by decide, by decide, by decide, fun sc => rfl, ?_, ?_, ?_⟩
  · intro tag sc h
    simp [determine_type, h]
  · intro code sc h
    simp [determine_type, h]
  · intro code v hcode hv
    by_cases h0 : v = 0
    · subst h0
      simp [determine_type, hcode]
    · have hpos : 0 < v := lt_of_le_of_ne hv (Ne.symm h0)
      simp [determine_type, hcode, hpos, h0]

/-- C3 witness: the hypotheses of `determine_type_spec` discharged at
concrete inputs. -/
theorem determine_type_spec_witness :
    TYPES_MAP (pyUpper "zzz") = none ∧
    NUMERIC_TYPES_MAP 42 = none ∧
    NUMERIC_TYPES_MAP 0 = some TYPE_INTEGER ∧
    determine_type (.strTag "zzz") none = TYPE_STRING ∧
    determine_type (.intCode 42) none = TYPE_STRING ∧
    determine_type (.intCode 0) (some 2) = TYPE_FLOAT := by
  refine ⟨by decide, by decide, by decide, ?_, ?_, ?_⟩
  · exact determine_type_spec.2.2.2.2.1 "zzz" none (by decide)
  · exact determine_type_spec.2.2.2.2.2.1 42 none (by decide)
  · exact (determine_type_spec.2.2.2.2.2.2 0 2 (by decide) (by decide)).mpr (by decide)

/-- C4: on the `run_query` path the string type-name table maps every
native tag into the fixed generic set, with NUMBER/FLOAT/REAL/DOUBLE to
FLOAT, INT/INTEGER to INTEGER, TEXT to STRING, BOOLEAN to BOOLEAN, DATE to
the date-only type, every TIMESTAMP variant to DATETIME, and any
unrecognized tag to STRING. -/
theorem run_query_type_map_spec :
    (runQueryColType "NUMBER" = TYPE_FLOAT ∧ runQueryColType "FLOAT" = TYPE_FLOAT ∧
     runQueryColType "REAL" = TYPE_FLOAT ∧ runQueryColType "DOUBLE" = TYPE_FLOAT ∧
     runQueryColType "INT" = TYPE_INTEGER ∧ runQueryColType "INTEGER" = TYPE_INTEGER ∧
     runQueryColType "TEXT" = TYPE_STRING ∧ runQueryColType "BOOLEAN" = TYPE_BOOLEAN ∧
     runQueryColType "DATE" = TYPE_DATE ∧
     runQueryColType "TIMESTAMP" = TYPE_DATETIME ∧
     runQueryColType "TIMESTAMP_LTZ" = TYPE_DATETIME ∧
     runQueryColType "TIMESTAMP_TZ" = TYPE_DATETIME ∧
     runQueryColType "TIMESTAMP_NTZ" = TYPE_DATETIME) ∧
    (∀ tag, tag ∉ TYPES_MAP_keys → runQueryColType tag = TYPE_STRING) ∧
    (∀ tag, runQueryColType tag = TYPE_STRING ∨ runQueryColType tag = TYPE_BOOLEAN ∨
      runQueryColType tag = TYPE_DATE ∨ runQueryColType tag = TYPE_DATETIME ∨
      runQueryColType tag = TYPE_INTEGER ∨ runQueryColType tag = TYPE_FLOAT) ∧
    (∀ desc, runQueryColumns desc = desc.map (fun col => (col.1, runQueryColType col.2))) := by
  refine ⟨by decide, ?_, ?_, fun desc => rfl⟩
  · intro tag h
    simp only [TYPES_MAP_keys, List.mem_cons, List.not_mem_nil, or_false, not_or] at h
    obtain ⟨h1, h2, h3, h4, h5, h6, h7, h8, h9, h10, h11, h12, h13⟩ := h
    simp [runQueryColType, TYPES_MAP, h1, h2, h3, h4, h5, h6, h7, h8, h9, h10, h11, h12, h13]
  · intro tag
    cases hr : runQueryColType tag <;> simp

/-- C4 witness: the unknown-tag hypothesis discharged at a concrete tag. -/
theorem run_query_type_map_spec_witness :
    "GEOGRAPHY" ∉ TYPES_MAP_keys ∧ runQueryColType "GEOGRAPHY" = TYPE_STRING :=
  ⟨by decide, run_query_type_map_spec.2.1 "GEOGRAPHY" (by decide)⟩

/-- C2: when the configured environment variable is absent from or empty in
the process environment, `_get_connection` raises the configuration error
before any crypto or driver call, and both `run_query` and
`test_connection` propagate it with nothing opened. -/
theorem env_var_missing_fails (o : Oracle) (cfg : Configuration) (varName : String)
    (hvar : cfg.private_key_env_var = some varName) (hne : varName ≠ "")
    (henv : o.osEnv varName = none ∨ o.osEnv varName = some "") :
    (getConnection o.lib o.osEnv cfg).result
        = .error (.configurationError (envNotSetMsg varName)) ∧
    (getConnection o.lib o.osEnv cfg).calls = [] ∧
    (run_query o cfg).1 = .error (.conn (.configurationError (envNotSetMsg varName))) ∧
    (run_query o cfg).2 = [] ∧
    (test_connection o cfg).1 = .error (.conn (.configurationError (envNotSetMsg varName))) ∧
    (test_connection o cfg).2 = [] := by
  have hres : (getConnection o.lib o.osEnv cfg).result
      = .error (.configurationError (envNotSetMsg varName)) := by
    rcases henv with h | h <;>
      simp [getConnection, resolveAndConnect, hvar, hne, h]
  have hcalls : (getConnection o.lib o.osEnv cfg).calls = [] := by
    rcases henv with h | h <;>
      simp [getConnection, resolveAndConnect, hvar, hne, h]
  refine ⟨hres, hcalls, ?_, ?_, ?_, ?_⟩ <;>
    simp [run_query, test_connection, hres]

/-- C2 witness: a configuration naming `SNOWFLAKE_PK` against an empty
environment. -/
theorem env_var_missing_fails_witness :
    cfgW2.private_key_env_var = some "SNOWFLAKE_PK" ∧
    "SNOWFLAKE_PK" ≠ "" ∧
    oracleW.osEnv "SNOWFLAKE_PK" = none ∧
    (run_query oracleW cfgW2).1
      = .error (.conn (.configurationError (envNotSetMsg "SNOWFLAKE_PK"))) ∧
    (test_connection oracleW cfgW2).1
      = .error (.conn (.configurationError (envNotSetMsg "SNOWFLAKE_PK"))) :=
  ⟨rfl, by decide, rfl,
   (env_var_missing_fails oracleW cfgW2 "SNOWFLAKE_PK" rfl (by decide) (Or.inl rfl)).2.2.1,
   (env_var_missing_fails oracleW cfgW2 "SNOWFLAKE_PK" rfl (by decide) (Or.inl rfl)).2.2.2.2.1⟩

/-- C5: once a connection and a cursor exist, every exit of `run_query` —
success, execution failure, or mapping/serialization failure — closes the
cursor and then the connection before returning. -/
theorem run_query_closes_resources (o : Oracle) (cfg : Configuration) (c : ConnectionHandle)
    (hconn : (getConnection o.lib o.osEnv cfg).result = .ok c)
    (hcur : o.cursorAcq = .ok ()) :
    (run_query o cfg).2 = [.connOpened, .cursorOpened, .cursorClosed, .connClosed] ∧
    Event.cursorClosed ∈ (run_query o cfg).2 ∧
    Event.connClosed ∈ (run_query o cfg).2 := by
  have h2 : (run_query o cfg).2
      = [.connOpened, .cursorOpened, .cursorClosed, .connClosed] := by
    simp [run_query, hconn, hcur]
  exact ⟨h2, by rw [h2]; simp, by rw [h2]; simp⟩

/-- C5 witness: the resource trace at a concrete oracle, including a run
whose execute phase fails. -/
theorem run_query_closes_resources_witness :
    (getConnection oracleW.lib oracleW.osEnv cfgW).result = .ok 7 ∧
    oracleW.cursorAcq = .ok () ∧
    (run_query oracleW cfgW).2
      = [.connOpened, .cursorOpened, .cursorClosed, .connClosed] :=
  ⟨rfl, rfl, (run_query_closes_resources oracleW cfgW 7 rfl rfl).1⟩

/-- C6: with a resolvable key, `_get_connection` makes exactly the calls
base64-decode, PEM-parse (the only call consuming the passphrase), and
connect — and the connect parameters carry the key re-encoded as DER/PKCS8
with no encryption. -/
theorem key_resolution_reencodes_to_der (lib : SnowflakeCryptoLib)
    (osEnv : String → Option String) (cfg : Configuration) (varName v : String)
    (kb : Bytes) (key : PrivateKeyHandle)
    (hvar : cfg.private_key_env_var = some varName) (hne : varName ≠ "")
    (henv : osEnv varName = some v) (hv : v ≠ "")
    (hb64 : lib.b64decode v = .ok kb)
    (hpem : lib.load_pem_private_key kb (pwdArg cfg) = .ok key) :
    (getConnection lib osEnv cfg).calls =
      [.b64decodeCall v, .loadPemCall kb (pwdArg cfg),
       .connectCall { baseParams cfg with
         private_key := some (lib.private_bytes key .DER .PKCS8 .NoEncryption) }] := by
  cases hc : lib.connect { baseParams cfg with
      private_key := some (lib.private_bytes key .DER .PKCS8 .NoEncryption) } <;>
    simp [getConnection, resolveAndConnect, attemptConnect, hvar, hne, henv, hv, hb64, hpem, hc]

/-- C6 witness: a concrete successful key resolution. -/
theorem key_resolution_reencodes_to_der_witness :
    cfgW2.private_key_env_var = some "SNOWFLAKE_PK" ∧
    (fun s => if s = "SNOWFLAKE_PK" then some "QkFTRTY0" else none) "SNOWFLAKE_PK"
      = some "QkFTRTY0" ∧
    libW.b64decode "QkFTRTY0" = .ok [1] ∧
    libW.load_pem_private_key [1] (pwdArg cfgW2) = .ok 5 ∧
    (getConnection libW (fun s => if s = "SNOWFLAKE_PK" then some "QkFTRTY0" else none) cfgW2).calls =
      [.b64decodeCall "QkFTRTY0", .loadPemCall [1] (pwdArg cfgW2),
       .connectCall { baseParams cfgW2 with
         private_key := some (libW.private_bytes 5 .DER .PKCS8 .NoEncryption) }] :=
  ⟨rfl, rfl, rfl, rfl,
   key_resolution_reencodes_to_der libW
     (fun s => if s = "SNOWFLAKE_PK" then some "QkFTRTY0" else none) cfgW2
     "SNOWFLAKE_PK" "QkFTRTY0" [1] 5 rfl (by decide) rfl (by decide) rfl rfl⟩

/-- C7: key resolution fails fatally — with the base64 error mapped to the
key-format failure and a PEM parse/decrypt error mapped to the
key-decryption failure — and in either case no connect call is made and no
key reaches the parameters. -/
theorem key_resolution_failures (lib : SnowflakeCryptoLib)
    (osEnv : String → Option String) (cfg : Configuration) (varName v : String)
    (hvar : cfg.private_key_env_var = some varName) (hne : varName ≠ "")
    (henv : osEnv varName = some v) (hv : v ≠ "") :
    (∀ e, lib.b64decode v = .error e →
      (getConnection lib osEnv cfg).result = .error (.keyFormatError e) ∧
      (getConnection lib osEnv cfg).calls = [.b64decodeCall v]) ∧
    (∀ kb e, lib.b64decode v = .ok kb →
      lib.load_pem_private_key kb (pwdArg cfg) = .error e →
      (getConnection lib osEnv cfg).result = .error (.keyDecryptionError e) ∧
      (getConnection lib osEnv cfg).calls
        = [.b64decodeCall v, .loadPemCall kb (pwdArg cfg)]) := by
  constructor
  · intro e he
    constructor <;>
      simp [getConnection, resolveAndConnect, hvar, hne, henv, hv, he]
  · intro kb e hkb he
    constructor <;>
      simp [getConnection, resolveAndConnect, hvar, hne, henv, hv, hkb, he]

/-- C7 witness: both failure shapes at concrete libraries. -/
theorem key_resolution_failures_witness :
    libF1.b64decode "QkFTRTY0" = .error "Invalid base64-encoded string" ∧
    (getConnection libF1 (fun s => if s = "SNOWFLAKE_PK" then some "QkFTRTY0" else none) cfgW2).result
      = .error (.keyFormatError "Invalid base64-encoded string") ∧
    libF2.load_pem_private_key [1] (pwdArg cfgW2) = .error "Incorrect password" ∧
    (getConnection libF2 (fun s => if s = "SNOWFLAKE_PK" then some "QkFTRTY0" else none) cfgW2).result
      = .error (.keyDecryptionError "Incorrect password") :=
  ⟨rfl,
   ((key_resolution_failures libF1
      (fun s => if s = "SNOWFLAKE_PK" then some "QkFTRTY0" else none) cfgW2
      "SNOWFLAKE_PK" "QkFTRTY0" rfl (by decide) rfl (by decide)).1
     "Invalid base64-encoded string" rfl).1,
   rfl,
   ((key_resolution_failures libF2
      (fun s => if s = "SNOWFLAKE_PK" then some "QkFTRTY0" else none) cfgW2
      "SNOWFLAKE_PK" "QkFTRTY0" rfl (by decide) rfl (by decide)).2
     [1] "Incorrect password" rfl rfl).1⟩

/-- C10: an empty-string passphrase is falsy, so the key is parsed with a
null password and resolution behaves exactly as with no passphrase
configured (same result, same external calls). -/
theorem empty_passphrase_like_none (lib : SnowflakeCryptoLib)
    (osEnv : String → Option String) (cfg : Configuration) :
    pwdArg { cfg with private_key_pwd := some "" } = none ∧
    pwdArg { cfg with private_key_pwd := none } = none ∧
    (getConnection lib osEnv { cfg with private_key_pwd := some "" }).result
      = (getConnection lib osEnv { cfg with private_key_pwd := none }).result ∧
    (getConnection lib osEnv { cfg with private_key_pwd := some "" }).calls
      = (getConnection lib osEnv { cfg with private_key_pwd := none }).calls := by
  refine ⟨rfl, rfl, ?_, ?_⟩
  · exact (resolveAndConnect_log_cfg_irrel lib osEnv
      { cfg with private_key_pwd := some "" } { cfg with private_key_pwd := none }
      (baseParams cfg) cfg.private_key_env_var none).1
  · exact (resolveAndConnect_log_cfg_irrel lib osEnv
      { cfg with private_key_pwd := some "" } { cfg with private_key_pwd := none }
      (baseParams cfg) cfg.private_key_env_var none).2
example :
    get_schema
      [{ kind := "COLUMN", schema_name := "S", table_name := "T1", column_name := "colA" },
       { kind := "COLUMN", schema_name := "S", table_name := "T2", column_name := "colB" },
       { kind := "VIEW", schema_name := "S", table_name := "T2", column_name := "ignored" },
       { kind := "COLUMN", schema_name := "S", table_name := "T2", column_name := "colC" }] =
      [{ name := "S.T1", columns := ["colA"] },
       { name := "S.T2", columns := ["colB", "colC"] }] := by decide
example :
    specSchema
      [{ kind := "COLUMN", schema_name := "S", table_name := "T1", column_name := "colA" },
       { kind := "COLUMN", schema_name := "S", table_name := "T2", column_name := "colB" },
       { kind := "VIEW", schema_name := "S", table_name := "T2", column_name := "ignored" },
       { kind := "COLUMN", schema_name := "S", table_name := "T2", column_name := "colC" }] =
      [{ name := "S.T1", columns := ["colA"] },
       { name := "S.T2", columns := ["colB", "colC"] }] := by decide

/-- C1: once a connection and a cursor exist, `run_query` returns normally
with a pair in which a failure of the execute / column-mapping / row-drain
/ serialize phase yields `(none, message)` carrying the first raised
message, full success yields `(serialized envelope, none)`, and exactly one
component is `none`. -/
theorem run_query_error_contract (o : Oracle) (cfg : Configuration) (c : ConnectionHandle)
    (hconn : (getConnection o.lib o.osEnv cfg).result = .ok c)
    (hcur : o.cursorAcq = .ok ()) :
    (run_query o cfg).1 = .ok (tryOutcome o) ∧
    (∀ m, phaseFailure o = some m → tryOutcome o = (none, some m)) ∧
    (phaseFailure o = none → ∃ j, tryOutcome o = (some j, none)) ∧
    ((tryOutcome o).1 = none ↔ (tryOutcome o).2 ≠ none) := by
  have hchar : (∀ m, phaseFailure o = some m → tryOutcome o = (none, some m)) ∧
      (phaseFailure o = none → ∃ j, tryOutcome o = (some j, none)) ∧
      ((tryOutcome o).1 = none ↔ (tryOutcome o).2 ≠ none) := by
    cases hex : o.executeQuery with
    | error e => simp [tryOutcome, phaseFailure, hex]
    | ok u =>
      cases hd : o.description with
      | error e => simp [tryOutcome, phaseFailure, hex, hd]
      | ok desc =>
        cases hr : o.drainRows with
        | error e => simp [tryOutcome, phaseFailure, hex, hd, hr]
        | ok rws =>
          cases hj : o.json_dumps (builtData desc rws) with
          | error e => simp [tryOutcome, phaseFailure, hex, hd, hr, hj]
          | ok j => simp [tryOutcome, phaseFailure, hex, hd, hr, hj]
  exact ⟨by simp [run_query, hconn, hcur], hchar.1, hchar.2.1, hchar.2.2⟩

/-- C1 witness: the contract applied at a succeeding oracle and at one
whose execute phase raises. -/
theorem run_query_error_contract_witness :
    (getConnection oracleW.lib oracleW.osEnv cfgW).result = .ok 7 ∧
    oracleW.cursorAcq = .ok () ∧
    (run_query oracleW cfgW).1 = .ok (tryOutcome oracleW) ∧
    tryOutcome oracleW = (some "serialized", none) ∧
    (getConnection oracleFail.lib oracleFail.osEnv cfgW).result = .ok 7 ∧
    (run_query oracleFail cfgW).1 = .ok (tryOutcome oracleFail) ∧
    tryOutcome oracleFail = (none, some "SQL compilation error") :=
  ⟨rfl, rfl, (run_query_error_contract oracleW cfgW 7 rfl rfl).1, rfl, rfl,
   (run_query_error_contract oracleFail cfgW 7 rfl rfl).1,
   (run_query_error_contract oracleFail cfgW 7 rfl rfl).2.1 "SQL compilation error" rfl⟩

lemma tableOrder_not_mem_seen {t : String} :
    ∀ (rows : List ShowRow) (seen : List String), t ∈ tableOrder rows seen → t ∉ seen := by
  intro rows
  induction rows with
  | nil =>
    intro seen h
    simp [tableOrder] at h
  | cons r rs ih =>
    intro seen h
    simp only [tableOrder] at h
    by_cases hc : isCol r ∧ qualifiedName r ∉ seen
    · rw [if_pos hc] at h
      rcases List.mem_cons.mp h with h1 | h2
      · exact h1 ▸ hc.2
      · exact fun hmem => (ih _ h2) (List.mem_cons_of_mem _ hmem)
    · rw [if_neg hc] at h
      exact ih seen h

lemma tableOrder_congr :
    ∀ (rows : List ShowRow) (s1 s2 : List String),
      (∀ x, x ∈ s1 ↔ x ∈ s2) → tableOrder rows s1 = tableOrder rows s2 := by
  intro rows
  induction rows with
  | nil =>
    intro s1 s2 h
    simp [tableOrder]
  | cons r rs ih =>
    intro s1 s2 h
    simp only [tableOrder]
    by_cases hc : isCol r ∧ qualifiedName r ∉ s1
    · have hc2 : isCol r ∧ qualifiedName r ∉ s2 :=
        ⟨hc.1, fun hm => hc.2 ((h _).mpr hm)⟩
      rw [if_pos hc, if_pos hc2]
      have hcong : ∀ x, x ∈ qualifiedName r :: s1 ↔ x ∈ qualifiedName r :: s2 := by
        intro x
        simp [List.mem_cons, h x]
      rw [ih _ _ hcong]
    · have hc2 : ¬ (isCol r ∧ qualifiedName r ∉ s2) := by
        intro hcon
        exact hc ⟨hcon.1, fun hm => hcon.2 ((h _).mp hm)⟩
      rw [if_neg hc, if_neg hc2]
      exact ih _ _ h

lemma tableOrder_nodup :
    ∀ (rows : List ShowRow) (seen : List String), (tableOrder rows seen).Nodup := by
  intro rows
  induction rows with
  | nil =>
    intro seen
    simp [tableOrder]
  | cons r rs ih =>
    intro seen
    simp only [tableOrder]
    by_cases hc : isCol r ∧ qualifiedName r ∉ seen
    · rw [if_pos hc]
      refine List.nodup_cons.mpr ⟨?_, ih _⟩
      intro hmem
      exact (tableOrder_not_mem_seen _ _ hmem) (List.mem_cons_self _ _)
    · rw [if_neg hc]
      exact ih seen

lemma columnsOf_cons_notCol {r : ShowRow} (h : ¬ isCol r = true)
    (rs : List ShowRow) (t : String) : columnsOf (r :: rs) t = columnsOf rs t := by
  simp [columnsOf, List.filter_cons, h]

lemma columnsOf_cons_col_eq {r : ShowRow} (h : isCol r = true) (rs : List ShowRow) :
    columnsOf (r :: rs) (qualifiedName r)
      = r.column_name :: columnsOf rs (qualifiedName r) := by
  simp [columnsOf, List.filter_cons, h]

lemma columnsOf_cons_col_ne {r : ShowRow} {t : String} (h : isCol r = true)
    (hne : qualifiedName r ≠ t) (rs : List ShowRow) :
    columnsOf (r :: rs) t = columnsOf rs t := by
  simp [columnsOf, List.filter_cons, h, hne]

lemma foldl_addRow_spec :
    ∀ (rows : List ShowRow) (acc : List SchemaEntry),
      List.foldl addRow acc rows =
        acc.map (fun e => { e with columns := e.columns ++ columnsOf rows e.name })
          ++ (tableOrder rows (acc.map SchemaEntry.name)).map
              (fun t => { name := t, columns := columnsOf rows t }) := by
  intro rows
  induction rows with
  | nil =>
    intro acc
    simp only [List.foldl_nil, tableOrder, List.map_nil, List.append_nil]
    have hmap : acc.map
        (fun e => { e with columns := e.columns ++ columnsOf [] e.name }) = acc := by
      refine (List.map_congr_left ?_).trans (List.map_id acc)
      intro e _
      simp [columnsOf]
    rw [hmap]
  | cons r rs ih =>
    intro acc
    rw [List.foldl_cons]
    by_cases hcol : isCol r = true
    · by_cases hmem : qualifiedName r ∈ acc.map SchemaEntry.name
      · have haddr : addRow acc r =
            acc.map (fun e => if e.name = qualifiedName r
              then { e with columns := e.columns ++ [r.column_name] } else e) := by
          simp [addRow, hcol, hmem]
        rw [haddr, ih]
        have hnames : (acc.map (fun e => if e.name = qualifiedName r
              then { e with columns := e.columns ++ [r.column_name] } else e)).map
                SchemaEntry.name
            = acc.map SchemaEntry.name := by
          rw [List.map_map]
          refine (List.map_congr_left ?_)
          intro e _
          by_cases he : e.name = qualifiedName r <;> simp [Function.comp, he]
        rw [hnames]
        have htab : tableOrder (r :: rs) (acc.map SchemaEntry.name)
            = tableOrder rs (acc.map SchemaEntry.name) := by
          simp only [tableOrder]
          rw [if_neg]
          intro hcon
          exact hcon.2 hmem
        rw [htab]
        congr 1
        · rw [List.map_map]
          refine List.map_congr_left ?_
          intro e _
          by_cases he : e.name = qualifiedName r
          · rw [Function.comp_apply, if_pos he]
            show ({ name := e.name, columns := (e.columns ++ [r.column_name]) ++ columnsOf rs e.name } : SchemaEntry) = { name := e.name, columns := e.columns ++ columnsOf (r :: rs) e.name }
            rw [SchemaEntry.mk.injEq]
            refine ⟨rfl, ?_⟩
            rw [he, columnsOf_cons_col_eq hcol]
            simp [List.append_assoc]
          · rw [Function.comp_apply, if_neg he]
            show ({ name := e.name, columns := e.columns ++ columnsOf rs e.name } : SchemaEntry) = { name := e.name, columns := e.columns ++ columnsOf (r :: rs) e.name }
            rw [columnsOf_cons_col_ne hcol (fun hq => he hq.symm)]
        · refine List.map_congr_left ?_
          intro t ht
          have hts : t ∉ acc.map SchemaEntry.name := tableOrder_not_mem_seen rs _ ht
          have hne : qualifiedName r ≠ t := fun hq => hts (hq ▸ hmem)
          rw [columnsOf_cons_col_ne hcol hne]
      · have hne2 : ∀ e ∈ acc, e.name ≠ qualifiedName r := by
          intro e he heq
          exact hmem (heq ▸ List.mem_map_of_mem SchemaEntry.name he)
        have hupd : acc.map (fun e => if e.name = qualifiedName r
            then { e with columns := e.columns ++ [r.column_name] } else e) = acc := by
          refine (List.map_congr_left ?_).trans (List.map_id acc)
          intro e he
          rw [if_neg (hne2 e he)]
          rfl
        have haddr : addRow acc r
            = acc ++ [{ name := qualifiedName r, columns := [r.column_name] }] := by
          simp [addRow, hcol, hmem, hupd]
        rw [haddr, ih]
        have hnames : (acc ++ [({ name := qualifiedName r, columns := [r.column_name] } : SchemaEntry)]).map SchemaEntry.name = acc.map SchemaEntry.name ++ [qualifiedName r] := by
          simp
        rw [hnames]
        have htabc : tableOrder rs (acc.map SchemaEntry.name ++ [qualifiedName r])
            = tableOrder rs (qualifiedName r :: acc.map SchemaEntry.name) :=
          tableOrder_congr rs _ _ (fun x => by simp [or_comm])
        rw [htabc]
        have htab : tableOrder (r :: rs) (acc.map SchemaEntry.name)
            = qualifiedName r :: tableOrder rs (qualifiedName r :: acc.map SchemaEntry.name) := by
          simp only [tableOrder]
          rw [if_pos ⟨hcol, hmem⟩]
        rw [htab]
        simp only [List.map_append, List.map_cons, List.map_nil]
        rw [List.append_assoc, List.singleton_append]
        congr 1
        · refine List.map_congr_left ?_
          intro e he
          rw [columnsOf_cons_col_ne hcol (fun hq => hne2 e he hq.symm)]
        · congr 1
          · rw [columnsOf_cons_col_eq hcol]
            rfl
          · refine List.map_congr_left ?_
            intro t ht
            have hts : t ∉ qualifiedName r :: acc.map SchemaEntry.name :=
              tableOrder_not_mem_seen rs _ ht
            have hne : qualifiedName r ≠ t := by
              intro hq
              exact hts (hq ▸ List.mem_cons_self _ _)
            rw [columnsOf_cons_col_ne hcol hne]
    · have haddr : addRow acc r = acc := by
        simp [addRow, hcol]
      rw [haddr, ih]
      have htab : tableOrder (r :: rs) (acc.map SchemaEntry.name)
          = tableOrder rs (acc.map SchemaEntry.name) := by
        simp only [tableOrder]
        rw [if_neg]
        intro hcon
        exact hcol hcon.1
      rw [htab]
      congr 1
      · refine List.map_congr_left ?_
        intro e _
        rw [columnsOf_cons_notCol hcol]
      · refine List.map_congr_left ?_
        intro t _
        rw [columnsOf_cons_notCol hcol]

lemma get_schema_eq_spec (rows : List ShowRow) : get_schema rows = specSchema rows := by
  have h := foldl_addRow_spec rows []
  simpa [get_schema, specSchema] using h

/-- C8: `get_schema` keeps exactly the rows whose kind is COLUMN, groups
them by the qualified name schema.table with one deduplicated entry per
distinct qualified name in first-occurrence order, and appends the column
names to each entry in emission order. -/
theorem get_schema_groups_columns (rows : List ShowRow) :
    get_schema rows = specSchema rows ∧
    ((get_schema rows).map SchemaEntry.name).Nodup := by
  refine ⟨get_schema_eq_spec rows, ?_⟩
  rw [get_schema_eq_spec rows]
  have hnames : (specSchema rows).map SchemaEntry.name = tableOrder rows [] := by
    rw [specSchema, List.map_map]
    exact List.map_id (tableOrder rows [])
  rw [hnames]
  exact tableOrder_nodup rows []

/-- C9 counterexample: the full configuration record — including the
secret `private_key_pwd` — is interpolated into a log line at the start of
every connection attempt, so a configuration secret is passed to the
logging output. -/
theorem config_secret_logged :
    cfgC9.private_key_pwd = some "hunter2" ∧
    LogEntry.configDump cfgC9 ∈ (getConnection libW envPK cfgC9).log := by
  constructor
  · rfl
  · have hlog : (getConnection libW envPK cfgC9).log
        = [.banner, .configDump cfgC9, .connParamsDump (baseParams cfgC9),
           .envVarName (some "SNOWFLAKE_PK"), .keyLoaded 8, .keyProcessed,
           .attemptingConnection, .connectionSuccess] := rfl
    rw [hlog]
    simp

/-- C9 (amended): the key material influences the log only through its
length and the success of each phase — two successful runs differing only
in the key value, with values of the same length, emit identical logs, and
no log entry carries key bytes — but the full configuration record,
private_key_pwd included, is always among the logged values. -/
theorem log_key_noninterference (lib : SnowflakeCryptoLib)
    (env1 env2 : String → Option String) (cfg : Configuration) (varName v1 v2 : String)
    (kb1 kb2 : Bytes) (k1 k2 : PrivateKeyHandle) (c1 c2 : ConnectionHandle)
    (hvar : cfg.private_key_env_var = some varName) (hn : varName ≠ "")
    (henv1 : env1 varName = some v1) (henv2 : env2 varName = some v2)
    (hv1 : v1 ≠ "") (hv2 : v2 ≠ "") (hlen : v1.length = v2.length)
    (hb1 : lib.b64decode v1 = .ok kb1) (hb2 : lib.b64decode v2 = .ok kb2)
    (hp1 : lib.load_pem_private_key kb1 (pwdArg cfg) = .ok k1)
    (hp2 : lib.load_pem_private_key kb2 (pwdArg cfg) = .ok k2)
    (hc1 : lib.connect { baseParams cfg with private_key := some (lib.private_bytes k1 .DER .PKCS8 .NoEncryption) } = .ok c1)
    (hc2 : lib.connect { baseParams cfg with private_key := some (lib.private_bytes k2 .DER .PKCS8 .NoEncryption) } = .ok c2) :
    (getConnection lib env1 cfg).log = (getConnection lib env2 cfg).log ∧
    LogEntry.configDump cfg ∈ (getConnection lib env1 cfg).log := by
  have h1 : (getConnection lib env1 cfg).log
      = [.banner, .configDump cfg, .connParamsDump (baseParams cfg),
         .envVarName (some varName), .keyLoaded v1.length, .keyProcessed,
         .attemptingConnection, .connectionSuccess] := by
    simp [getConnection, resolveAndConnect, attemptConnect, hvar, hn, henv1, hv1, hb1, hp1, hc1]
  have h2 : (getConnection lib env2 cfg).log
      = [.banner, .configDump cfg, .connParamsDump (baseParams cfg),
         .envVarName (some varName), .keyLoaded v2.length, .keyProcessed,
         .attemptingConnection, .connectionSuccess] := by
    simp [getConnection, resolveAndConnect, attemptConnect, hvar, hn, henv2, hv2, hb2, hp2, hc2]
  refine ⟨?_, ?_⟩
  · rw [h1, h2, hlen]
  · rw [h1]
    simp

/-- C9 (amended) witness: two runs over different same-length key values
produce identical logs. -/
theorem log_key_noninterference_witness :
    envNI1 "SNOWFLAKE_PK" = some "aa" ∧
    envNI2 "SNOWFLAKE_PK" = some "bb" ∧
    String.length "aa" = String.length "bb" ∧
    libNI.b64decode "aa" = .ok [97, 97] ∧
    libNI.b64decode "bb" = .ok [98, 98] ∧
    (getConnection libNI envNI1 cfgW2).log = (getConnection libNI envNI2 cfgW2).log ∧
    LogEntry.configDump cfgW2 ∈ (getConnection libNI envNI1 cfgW2).log :=
  ⟨rfl, rfl, rfl, rfl, rfl,
   (log_key_noninterference libNI envNI1 envNI2 cfgW2 "SNOWFLAKE_PK" "aa" "bb"
      [97, 97] [98, 98] 97 98 3 3 rfl (by decide) rfl rfl (by decide) (by decide)
      rfl rfl rfl rfl rfl rfl rfl).1,
   (log_key_noninterference libNI envNI1 envNI2 cfgW2 "SNOWFLAKE_PK" "aa" "bb"
      [97, 97] [98, 98] 97 98 3 3 rfl (by decide) rfl rfl (by decide) (by decide)
      rfl rfl rfl rfl rfl rfl rfl).2⟩
